import Mathlib

/-!
Shallow embedding of the Dragon Wings image-generation backend
(src/backend/app/{config,schemas,models,main}.py) and proofs about it.

Conventions:
* Python dicts with insertion order are embedded as association lists
  `List (String × α)`; `d[k]` / `k in d` become `List.lookup`.
* Python floats that only carry configuration values (weights, guidance,
  progress) are embedded as `Rat`.
* `Optional[T]` becomes `Option T`; a raised exception becomes the `.error`
  branch of `Except`.
* External effects (the diffusers engine, the filesystem, osascript) are
  abstracted by explicit outcome parameters.
-/

namespace DragonWings

/-- A single-quote character, built numerically so the source stays free of
quote literals. Python error messages wrap names in single quotes. -/
def sq : String := String.singleton (Char.ofNat 39)

/-- Wrap a string in single quotes, as Python f-strings like
`f"LoRA '{lora.key}' ..."` do. -/
def quoted (s : String) : String := sq ++ s ++ sq

/-- Python `", ".join(xs)`. -/
def joinComma : List String → String
  | [] => ""
  | [x] => x
  | x :: y :: xs => x ++ ", " ++ joinComma (y :: xs)

/-! ## Capability Registry (src/backend/app/config.py)

Descriptive prose fields of the config dicts (name, description,
recommended_for, strengths, weaknesses, ram_required_gb) play no role in any
claim and are omitted from the embedded records. -/

/-- One entry of `MODEL_CONFIGS` (config.py:7-102). -/
structure ModelConfig where
  model_id : String
  native_resolution : Nat
  txt2img : Bool
  img2img : Bool
  inpaint : Bool
  requires_gpu : Bool := false
  deriving DecidableEq

/-- `MODEL_CONFIGS` (config.py:7-102), in dict insertion order. -/
def MODEL_CONFIGS : List (String × ModelConfig) :=
  [ ("sd-v1-5",
      { model_id := "runwayml/stable-diffusion-v1-5", native_resolution := 512,
        txt2img := true, img2img := true, inpaint := true }),
    ("openjourney",
      { model_id := "prompthero/openjourney", native_resolution := 512,
        txt2img := true, img2img := true, inpaint := true }),
    ("sdxl",
      { model_id := "stabilityai/stable-diffusion-xl-base-1.0", native_resolution := 1024,
        txt2img := true, img2img := true, inpaint := true, requires_gpu := true }),
    ("realistic-vision",
      { model_id := "SG161222/Realistic_Vision_V5.1_noVAE", native_resolution := 512,
        txt2img := true, img2img := true, inpaint := true }),
    ("dreamshaper",
      { model_id := "Lykon/dreamshaper-8", native_resolution := 512,
        txt2img := true, img2img := true, inpaint := true }),
    ("analog-diffusion",
      { model_id := "wavymulder/Analog-Diffusion", native_resolution := 512,
        txt2img := true, img2img := true, inpaint := true }),
    ("flux-schnell",
      { model_id := "black-forest-labs/FLUX.1-schnell", native_resolution := 1024,
        txt2img := true, img2img := false, inpaint := false }) ]

/-- `SD15_COMPATIBLE_MODELS` (config.py:105). -/
def SD15_COMPATIBLE_MODELS : List String :=
  ["sd-v1-5", "openjourney", "realistic-vision", "dreamshaper", "analog-diffusion"]

/-- `SDXL_COMPATIBLE_MODELS` (config.py:106). -/
def SDXL_COMPATIBLE_MODELS : List String := ["sdxl"]

/-- One entry of `LORA_CONFIGS` (config.py:140-174). The
`weight_range` dict becomes the pair of fields `weight_min`/`weight_max`. -/
structure LoraConfig where
  lora_id : Option String
  local_path : Option String
  default_weight : Rat
  weight_min : Rat
  weight_max : Rat
  compatible_models : List String
  trigger_words : List String
  category : String
  deriving DecidableEq

/-- `LORA_CONFIGS` (config.py:140-174), in dict insertion order. -/
def LORA_CONFIGS : List (String × LoraConfig) :=
  [ ("watercolor",
      { lora_id := some "SydigiAI/WaterColorStyle-loRA",
        local_path := some "./loras/watercolor.safetensors",
        default_weight := 0.7, weight_min := 0.0, weight_max := 1.2,
        compatible_models := SD15_COMPATIBLE_MODELS,
        trigger_words := ["Sora WaterColor", "watercolor", "watercolor painting"],
        category := "artistic" }),
    ("anime-ghibli",
      { lora_id := some "artificialguybr/studioghibli-redmond-1-5v-studio-ghibli-lora-for-liberteredmond-sd-1-5",
        local_path := some "./loras/anime-ghibli.safetensors",
        default_weight := 0.75, weight_min := 0.0, weight_max := 1.2,
        compatible_models := SD15_COMPATIBLE_MODELS,
        trigger_words := ["Studio Ghibli", "StdGBRedmAF", "ghibli style", "anime"],
        category := "stylized" }),
    ("thangka",
      { lora_id := some "Oedon42/thangka-lora-xl",
        local_path := none,
        default_weight := 0.8, weight_min := 0.0, weight_max := 1.2,
        compatible_models := SDXL_COMPATIBLE_MODELS,
        trigger_words := ["thangka", "Avalokiteshvara", "bodhisattva", "tibetan art", "mandala"],
        category := "artistic" }) ]

/-- `Settings.get_model_config` (config.py:213-217): raises `ValueError` for a
key not in `MODEL_CONFIGS`, with a message enumerating the available keys. -/
def get_model_config (model_key : String) : Except String ModelConfig :=
  match MODEL_CONFIGS.lookup model_key with
  | some c => .ok c
  | none => .error ("Unknown model key: " ++ model_key ++ ". Available: "
      ++ joinComma (MODEL_CONFIGS.map Prod.fst))

/-- `Settings.get_model_id_from_key` (config.py:219-222). -/
def get_model_id_from_key (model_key : String) : Except String String :=
  match get_model_config model_key with
  | .ok c => .ok c.model_id
  | .error e => .error e

/-- `Settings.get_lora_config` (config.py:224-238). -/
def get_lora_config (lora_key : String) : Except String LoraConfig :=
  match LORA_CONFIGS.lookup lora_key with
  | some c => .ok c
  | none => .error ("Unknown LoRA key: " ++ lora_key ++ ". Available: "
      ++ joinComma (LORA_CONFIGS.map Prod.fst))

/-- `Settings.get_compatible_loras` (config.py:240-253). -/
def get_compatible_loras (model_key : String) : List String :=
  (LORA_CONFIGS.filter (fun p => p.2.compatible_models.contains model_key)).map Prod.fst

/-- `Settings.is_lora_compatible` (config.py:255-268). -/
def is_lora_compatible (lora_key model_key : String) : Bool :=
  match LORA_CONFIGS.lookup lora_key with
  | none => false
  | some cfg => cfg.compatible_models.contains model_key

/-- `Settings.supports_inpaint` (config.py:270-281). -/
def supports_inpaint (model_key : String) : Bool :=
  match MODEL_CONFIGS.lookup model_key with
  | none => false
  | some cfg => cfg.inpaint

/-! ## Submission path of `/api/generate` (src/backend/app/main.py:615-683)

`main.py` imports `LoraSpec` from `app.schemas` and reads `request.loras`, but
`schemas.py` in this tree declares neither; the shape is modelled from the
spec. -/

/-- Modelled from the spec: the adapter list entries of a generation request,
"optional adapter list of \x7bkey, optional weight\x7d" (spec section 6); the
`LoraSpec` schema class is imported by main.py but absent from schemas.py. -/
structure LoraSpec where
  key : String
  weight : Option Rat
  deriving DecidableEq

/-- `GenerateRequest` (schemas.py:7-30), with the `loras` field read by
main.py:635 (modelled from the spec alongside `LoraSpec`). -/
structure GenerateRequest where
  prompt : String
  model_key : String := "sd-v1-5"
  negative_prompt : Option String := none
  num_inference_steps : Nat := 30
  guidance_scale : Rat := 7.5
  width : Nat := 512
  height : Nat := 512
  seed : Option Nat := none
  loras : Option (List LoraSpec) := none
  deriving DecidableEq

/-- An `HTTPException(status_code, detail)` surfaced synchronously by an
endpoint. -/
inductive SubmitError
  | http (status : Nat) (detail : String)
  deriving DecidableEq

/-- The detail string raised at main.py:641-644 for an incompatible LoRA. -/
def incompat_detail (lora_key model_key : String) : String :=
  "LoRA " ++ quoted lora_key ++ " is not compatible with model " ++ quoted model_key
    ++ ". Compatible LoRAs: "
    ++ (if (get_compatible_loras model_key).isEmpty then "none"
        else joinComma (get_compatible_loras model_key))

/-- The per-adapter validation loop of `generate_image` (main.py:636-653):
fails at the first incompatible adapter, otherwise resolves the effective
weight (explicit request value, else the configured default). A missing
config after a successful compatibility check cannot occur; it would escape
as an unhandled `ValueError` (status 500 via the global handler). -/
def validate_loras (model_key : String) : List LoraSpec → Except SubmitError (List (String × Rat))
  | [] => .ok []
  | lora :: rest =>
    if is_lora_compatible lora.key model_key then
      match get_lora_config lora.key with
      | .error e => .error (.http 500 e)
      | .ok cfg =>
        match validate_loras model_key rest with
        | .error e => .error e
        | .ok specs => .ok ((lora.key, lora.weight.getD cfg.default_weight) :: specs)
    else
      .error (.http 400 (incompat_detail lora.key model_key))

/-- The accepted-submission record: the job entry created at main.py:659-664
(always `pending`) together with the resolved adapter specs handed to the
background task. A job is created, and a task queued, only in this case. -/
structure Submission where
  job_status : String
  job_message : String
  lora_specs : Option (List (String × Rat))
  deriving DecidableEq

/-- `generate_image` (main.py:615-683), the synchronous submission handler:
dimension validation, adapter validation, then job creation in `pending`
state. Python treats an empty `request.loras` list as falsy, leaving
`lora_specs = None`. -/
def generate_image (req : GenerateRequest) : Except SubmitError Submission :=
  if req.width % 8 != 0 || req.height % 8 != 0 then
    .error (.http 400 "Width and height must be multiples of 8")
  else
    match req.loras with
    | none => .ok { job_status := "pending", job_message := "Job queued for processing",
                    lora_specs := none }
    | some [] => .ok { job_status := "pending", job_message := "Job queued for processing",
                       lora_specs := none }
    | some (l :: ls) =>
      match validate_loras req.model_key (l :: ls) with
      | .error e => .error e
      | .ok specs => .ok { job_status := "pending", job_message := "Job queued for processing",
                           lora_specs := some specs }

/-! ## Provenance metadata (main.py:100-131, 263-278) -/

/-- The `"seed"` entry of the metadata dict, `seed if seed else "random"`
(main.py:275, and identically main.py:398 and main.py:531), composed with the
`str(...)` applied when `add_energy_metadata` writes the `AI-Seed` PNG text
chunk (main.py:127). Python truthiness makes both `None` and `0` falsy. -/
def metadata_seed : Option Nat → String
  | none => "random"
  | some n => if n = 0 then "random" else toString n

/-! ## Job table and background-task traces (main.py:209-589, 941-958)

A background task mutates its entry of the `jobs` dict through a sequence of
updates; each task run is embedded as the `List JobUpdate` it performs, in
program order. The diffusers engine call is opaque: its outcome is an
`EngineResult` parameter and the progress-callback invocations it makes are a
`List Rat` parameter. Wall-clock timing fields are not modelled. -/

/-- Outcome of one opaque Generation Engine invocation. -/
inductive EngineResult
  | ok
  | err (msg : String)
  deriving DecidableEq

/-- The public fields of one `jobs[job_id]` entry that the status endpoint
projects (main.py:659-664, 951-958). -/
structure Job where
  status : String
  message : String
  progress_percent : Option Rat := none
  image_url : Option String := none
  deriving DecidableEq

/-- The job entry as created at submission (main.py:659-664). -/
def initialJob : Job :=
  { status := "pending", message := "Job queued for processing" }

/-- One mutation of a `jobs[job_id]` entry performed by a background task. -/
inductive JobUpdate
  | setStatus (s : String)
  | setProgress (p : Rat)
  | completedUpdate (url : String) (msg : String)
  | failedUpdate (msg : String)
  deriving DecidableEq

/-- Apply one update: `setStatus`/`setProgress` are the single-key writes at
e.g. main.py:226-227 and main.py:237; `completedUpdate` is the success
`jobs[job_id].update(...)` (main.py:317-324) which also sets progress to 100;
`failedUpdate` is the failure `jobs[job_id].update(...)` (main.py:330-333). -/
def applyUpdate (j : Job) : JobUpdate → Job
  | .setStatus s => { j with status := s }
  | .setProgress p => { j with progress_percent := some p }
  | .completedUpdate url msg =>
    { j with status := "completed", image_url := some url, message := msg,
             progress_percent := some 100 }
  | .failedUpdate msg => { j with status := "failed", message := msg }

def applyAll (j : Job) (us : List JobUpdate) : Job := us.foldl applyUpdate j

/-- The job state visible after the first `i` updates of a task trace. -/
def runPrefix (t : List JobUpdate) (i : Nat) : Job := applyAll initialJob (t.take i)

/-- The two terminal states of the job state machine. -/
def isTerminal (s : String) : Bool := s == "completed" || s == "failed"

/-- The response projected by `get_status` (main.py:941-958); the wall-clock
`generation_time` field is not modelled. -/
structure StatusResponse where
  job_id : String
  status : String
  image_url : Option String
  message : Option String
  progress_percent : Option Rat
  deriving DecidableEq

/-- `get_status` (main.py:941-958): a pure read of the job table; unknown ids
get a 404, known ids a projection of the entry. It never writes. -/
def get_status (jobs : List (String × Job)) (job_id : String) :
    Except SubmitError StatusResponse :=
  match jobs.lookup job_id with
  | none => .error (.http 404 ("Job " ++ job_id ++ " not found"))
  | some j => .ok { job_id := job_id, status := j.status, image_url := j.image_url,
                    message := some j.message, progress_percent := j.progress_percent }

/-- The osascript invocation inside `set_finder_comment` (main.py:195-201);
whether it raises is an external matter, abstracted by `raises`. -/
def run_osascript (raises : Bool) : Except String Unit :=
  if raises then .error "osascript failed" else .ok ()

/-- `set_finder_comment` (main.py:178-206): wraps the osascript call in its own
try/except, logging a warning and returning normally on failure. Returns
whether a warning was logged; it never propagates an exception. -/
def set_finder_comment (raises : Bool) : Bool :=
  match run_osascript raises with
  | .ok _ => false
  | .error _ => true

/-- The finalize tail of `generate_image_task` after a successful engine call
(main.py:280-324): build the PNG text chunks (`add_energy_metadata`), save the
PNG, build the JPEG EXIF bytes (`add_energy_metadata_jpeg`), save the JPEG,
set the Finder comment on both files, then mark the job completed. A raise
from either embedding step (abstracted as `png_err` / `jpeg_err`) propagates
to the task-level except handler (main.py:328-333); a Finder-comment failure
is swallowed inside `set_finder_comment`. -/
def finalize_updates (job_id : String) (png_err jpeg_err : Option String)
    (finder_raises : Bool) : List JobUpdate :=
  match png_err with
  | some e => [.failedUpdate ("Generation failed: " ++ e)]
  | none =>
    match jpeg_err with
    | some e => [.failedUpdate ("Generation failed: " ++ e)]
    | none =>
      let _warned_png := set_finder_comment finder_raises
      let _warned_jpeg := set_finder_comment finder_raises
      [.completedUpdate ("/images/" ++ job_id ++ ".png") "Image generated successfully"]

/-- `generate_image_task` (main.py:209-333) as the trace of job updates it
performs: mark processing, resolve the model key (failure caught by the
except handler), invoke the engine (progress callbacks update the job), then
finalize. -/
def generate_image_task_trace (job_id model_key : String) (engine : EngineResult)
    (ticks : List Rat) (png_err jpeg_err : Option String) (finder_raises : Bool) :
    List JobUpdate :=
  [.setStatus "processing", .setProgress 0] ++
  match get_model_id_from_key model_key with
  | .error e => [.failedUpdate ("Generation failed: " ++ e)]
  | .ok _ =>
    (ticks.map JobUpdate.setProgress) ++
    match engine with
    | .err e => [.failedUpdate ("Generation failed: " ++ e)]
    | .ok => finalize_updates job_id png_err jpeg_err finder_raises

/-! ### The img2img and inpaint tasks (main.py:336-589)

Both tasks build their metadata dict from the names `width` and `height`
(main.py:399-400 and main.py:532-533). Neither name is a parameter of these
functions, assigned in their bodies before that point, or a module-level
binding of main.py, so evaluating the dict raises `NameError`. Python name
resolution is embedded explicitly: the names bound in each function body at
that point, and a lookup that raises for unbound names. -/

/-- Names bound inside `generate_img2img_task` when the metadata dict at
main.py:387-401 is evaluated: the parameters (main.py:336-346) and the locals
assigned before main.py:387. -/
def img2img_task_scope : List String :=
  ["job_id", "init_image", "prompt", "model_key", "strength", "negative_prompt",
   "num_inference_steps", "guidance_scale", "seed", "time", "start_time",
   "model_id", "update_progress", "image", "generation_time", "energy_wh",
   "hour", "energy_source", "metadata"]

/-- Names bound inside `generate_inpaint_task` when the metadata dict at
main.py:520-534 is evaluated: the parameters (main.py:459-473) and the locals
assigned before main.py:520. -/
def inpaint_task_scope : List String :=
  ["job_id", "init_image", "mask_image", "prompt", "model_key", "strength",
   "negative_prompt", "num_inference_steps", "guidance_scale", "seed",
   "blur_mask", "blur_factor", "lora_specs", "time", "start_time",
   "model_id", "update_progress", "image", "generation_time", "energy_wh",
   "hour", "energy_source", "metadata"]

/-- Python name resolution: evaluating an unbound name raises
`NameError("name 'x' is not defined")`. -/
def eval_name (scope : List String) (n : String) : Except String Unit :=
  if scope.contains n then .ok ()
  else .error ("name " ++ quoted n ++ " is not defined")

/-- Evaluating the metadata dict literal of `generate_img2img_task`
(main.py:387-401): its `"width"` and `"height"` values read the names `width`
and `height`. -/
def build_img2img_metadata : Except String Unit := do
  eval_name img2img_task_scope "width"
  eval_name img2img_task_scope "height"

/-- Evaluating the metadata dict literal of `generate_inpaint_task`
(main.py:520-534): its `"width"` and `"height"` values read the names `width`
and `height`. -/
def build_inpaint_metadata : Except String Unit := do
  eval_name inpaint_task_scope "width"
  eval_name inpaint_task_scope "height"

/-- `generate_img2img_task` (main.py:336-456) as its trace of job updates.
The metadata dict is evaluated after a successful engine call and before any
artifact is persisted; a raise there reaches the except handler
(main.py:451-456). -/
def generate_img2img_task_trace (job_id model_key : String) (engine : EngineResult)
    (ticks : List Rat) : List JobUpdate :=
  [.setStatus "processing", .setProgress 0] ++
  match get_model_id_from_key model_key with
  | .error e => [.failedUpdate ("Img2img generation failed: " ++ e)]
  | .ok _ =>
    (ticks.map JobUpdate.setProgress) ++
    match engine with
    | .err e => [.failedUpdate ("Img2img generation failed: " ++ e)]
    | .ok =>
      match build_img2img_metadata with
      | .error e => [.failedUpdate ("Img2img generation failed: " ++ e)]
      | .ok _ =>
        [.completedUpdate ("/images/" ++ job_id ++ ".png") "Img2img generated successfully"]

/-- `generate_inpaint_task` (main.py:459-589) as its trace of job updates. -/
def generate_inpaint_task_trace (job_id model_key : String) (engine : EngineResult)
    (ticks : List Rat) : List JobUpdate :=
  [.setStatus "processing", .setProgress 0] ++
  match get_model_id_from_key model_key with
  | .error e => [.failedUpdate ("Inpaint generation failed: " ++ e)]
  | .ok _ =>
    (ticks.map JobUpdate.setProgress) ++
    match engine with
    | .err e => [.failedUpdate ("Inpaint generation failed: " ++ e)]
    | .ok =>
      match build_inpaint_metadata with
      | .error e => [.failedUpdate ("Inpaint generation failed: " ++ e)]
      | .ok _ =>
        [.completedUpdate ("/images/" ++ job_id ++ ".png") "Inpaint generated successfully"]

/-! ## Pipeline Resource Manager (src/backend/app/models.py:40-322)

`StableDiffusionModel.__init__` (models.py:55-61) creates `model_cache`,
`device`, `current_model_id` and `loaded_loras`, and nothing else: the object
owns no lock or other mutual-exclusion mechanism, and `load_model` /
`load_img2img_model` / `load_inpaint_model` acquire none. The nested dict
`model_cache : {model_id: {mode: pipe}}` is flattened to an association list
keyed by the `(model_id, mode)` pair; loaded engine handles are numbered, and
ghost counters record how many expensive `from_pretrained` loads ran.

The acquire path (models.py:227-322 for mode `"txt2img"`, and the identically
structured loaders for `"img2img"` and `"inpaint"`) is a read-check-insert
sequence: check the cache and return the cached handle, else load the engine,
else insert the handle. It is embedded as a small-step thread program so that
concurrent executions can interleave exactly where the unguarded Python can:
the in-memory cache check plus the start of the load form one step, and the
cache insert (models.py:313-315) a second step, with the long-running load in
between carrying no lock. -/

/-- The mutable state of the (global) `StableDiffusionModel` instance.
`load_count` and `next_handle` are ghost fields counting engine loads and
numbering handles. -/
structure PipelineManagerState where
  model_cache : List ((String × String) × Nat)
  device : String
  current_model_id : String
  loaded_loras : List (String × List (String × String))
  load_count : Nat
  next_handle : Nat
  deriving DecidableEq

/-- The state after `__init__` (models.py:55-61) with the default settings
(device `cpu`, model `runwayml/stable-diffusion-v1-5`). -/
def init_manager : PipelineManagerState :=
  { model_cache := [], device := "cpu",
    current_model_id := "runwayml/stable-diffusion-v1-5",
    loaded_loras := [], load_count := 0, next_handle := 0 }

/-- Python dict assignment `model_cache.setdefault(mid, \x7b\x7d)[mode] = pipe`
on the flattened cache: overwrite an existing binding, else append. -/
def insert_cache (c : List ((String × String) × Nat)) (k : String × String) (h : Nat) :
    List ((String × String) × Nat) :=
  match c.lookup k with
  | some _ => c.map (fun p => if p.1 = k then (k, h) else p)
  | none => c ++ [(k, h)]

/-- Program counter of one thread running a loader for a fixed
`(model_id, mode)`. `start`: about to run the cache check (models.py:235);
`loadedPipe h`: finished the engine load with fresh handle `h`, about to
insert (models.py:313-315); `done h`: returned handle `h`. -/
inductive LoadPC
  | start
  | loadedPipe (h : Nat)
  | done (h : Nat)
  deriving DecidableEq

/-- One atomic step of a loader thread. From `start`: the cache check
(models.py:235-237) and, on a miss, the start of the engine load — the load
bumps the ghost counters and yields a fresh handle. From `loadedPipe`: the
cache insert (models.py:313-316). No step touches a lock: none exists. -/
def load_step (mid mode : String) (s : PipelineManagerState) :
    LoadPC → PipelineManagerState × LoadPC
  | .start =>
    match s.model_cache.lookup (mid, mode) with
    | some h => (s, .done h)
    | none =>
      ({ s with load_count := s.load_count + 1, next_handle := s.next_handle + 1 },
       .loadedPipe s.next_handle)
  | .loadedPipe h =>
    ({ s with model_cache := insert_cache s.model_cache (mid, mode) h,
              current_model_id := mid },
     .done h)
  | .done h => (s, .done h)

/-- Run two threads, each executing the loader for the same `(mid, mode)`,
under a schedule: `true` steps thread 1, `false` steps thread 2. Because the
code holds no lock, every schedule is a possible execution. -/
def run2 (mid mode : String) :
    List Bool → PipelineManagerState × LoadPC × LoadPC → PipelineManagerState × LoadPC × LoadPC
  | [], s => s
  | b :: rest, (st, p1, p2) =>
    if b then
      let (st2, p1a) := load_step mid mode st p1
      run2 mid mode rest (st2, p1a, p2)
    else
      let (st2, p2a) := load_step mid mode st p2
      run2 mid mode rest (st2, p1, p2a)

/-! ## Image/Mask Preprocessor (models.py:691-715, 775-816, 879-906) -/

/-- The init-image normalization inside `generate_image_from_image`
(models.py:691-715), on the image dimensions: if either dimension exceeds
1024, downscale preserving aspect ratio and floor both results to a multiple
of 8; otherwise the image is left untouched. The source computes the scaled
dimension with float arithmetic, `int((max_size / width) * height)`; it is
embedded as the exact floor `(max_size * height) / width`. -/
def normalize_init_image_img2img (w h : Nat) : Nat × Nat :=
  let max_size := 1024
  if w > max_size || h > max_size then
    let nw := if w > h then max_size else (max_size * w) / h
    let nh := if w > h then (max_size * h) / w else max_size
    ((nw / 8) * 8, (nh / 8) * 8)
  else
    (w, h)

/-- The init-image normalization inside `generate_image_inpaint`
(models.py:879-906): the same downscale block, followed by an unconditional
floor of both dimensions to a multiple of 8 (models.py:900-906). -/
def normalize_init_image_inpaint (w h : Nat) : Nat × Nat :=
  let max_size := 1024
  let wh1 :=
    if w > max_size || h > max_size then
      let nw := if w > h then max_size else (max_size * w) / h
      let nh := if w > h then (max_size * h) / w else max_size
      ((nw / 8) * 8, (nh / 8) * 8)
    else
      (w, h)
  ((wh1.1 / 8) * 8, (wh1.2 / 8) * 8)

/-! ## Negative-prompt resolution (models.py:10-18, 366-393, 681-683, 868-870) -/

/-- `DEFAULT_NEGATIVE_PROMPT` (models.py:10-18). -/
def DEFAULT_NEGATIVE_PROMPT : String :=
  "lowres, bad anatomy, bad hands, text, error, missing fingers, extra digit, "
  ++ "fewer digits, cropped, worst quality, low quality, normal quality, "
  ++ "jpeg artifacts, signature, watermark, username, blurry, deformed, "
  ++ "disfigured, mutation, mutated, ugly, duplicate, morbid, mutilated, "
  ++ "out of frame, extra limbs, bad proportions, malformed limbs, missing arms, "
  ++ "missing legs, extra arms, extra legs, fused fingers, too many fingers, "
  ++ "long neck, poorly drawn hands, poorly drawn face"

/-- `SDXL_MODEL_IDS` (models.py:44-47). -/
def SDXL_MODEL_IDS : List String :=
  ["stabilityai/stable-diffusion-xl-base-1.0", "stabilityai/stable-diffusion-xl-refiner-1.0"]

/-- `FLUX_MODEL_IDS` (models.py:50-53). -/
def FLUX_MODEL_IDS : List String :=
  ["black-forest-labs/FLUX.1-schnell", "black-forest-labs/FLUX.1-dev"]

/-- Python substring containment `needle in hay`. -/
def str_contains (hay needle : String) : Bool :=
  decide (List.IsInfix needle.toList hay.toList)

/-- `_is_sdxl_model` (models.py:63-65). -/
def is_sdxl_model (model_id : String) : Bool :=
  SDXL_MODEL_IDS.any (fun sid => str_contains model_id sid)

/-- `_is_flux_model` (models.py:67-69). -/
def is_flux_model (model_id : String) : Bool :=
  FLUX_MODEL_IDS.any (fun fid => str_contains model_id fid)

/-- Python truthiness of an `Optional[str]`: both `None` and `""` are falsy. -/
def str_opt_falsy : Option String → Bool
  | none => true
  | some s => s == ""

/-- The negative-prompt resolution in `generate_image` (models.py:366-393),
run before the engine is invoked: FLUX models discard any supplied negative
prompt (`negative_prompt = None`, models.py:374); SDXL and standard models
substitute `DEFAULT_NEGATIVE_PROMPT` when none was supplied or the supplied
one is empty (models.py:385-386 and 392-393). -/
def effective_negative_prompt_txt2img (model_id : String) (np : Option String) :
    Option String :=
  if is_flux_model model_id then
    none
  else if is_sdxl_model model_id then
    (if str_opt_falsy np then some DEFAULT_NEGATIVE_PROMPT else np)
  else
    (if str_opt_falsy np then some DEFAULT_NEGATIVE_PROMPT else np)

/-- The negative-prompt resolution in `generate_image_from_image`
(models.py:681-683). -/
def effective_negative_prompt_img2img (np : Option String) : Option String :=
  if str_opt_falsy np then some DEFAULT_NEGATIVE_PROMPT else np

/-- The negative-prompt resolution in `generate_image_inpaint`
(models.py:868-870). -/
def effective_negative_prompt_inpaint (np : Option String) : Option String :=
  if str_opt_falsy np then some DEFAULT_NEGATIVE_PROMPT else np

/-! ## Adapter application (models.py:79-225) -/

/-- `load_lora` (models.py:79-154): returns the adapter name (the lora key
itself, models.py:139) on success, `none` otherwise. An unknown key and an
incompatible model yield `none` (models.py:98-100, 121-127); the weight-source
resolution, the already-loaded check and the actual `load_lora_weights` call
depend on the filesystem and network and are abstracted by `load_ok`. -/
def load_lora (load_ok : String → Bool) (lora_key model_key : String) : Option String :=
  match LORA_CONFIGS.lookup lora_key with
  | none => none
  | some _ =>
    if is_lora_compatible lora_key model_key then
      (if load_ok lora_key then some lora_key else none)
    else
      none

/-- `apply_loras` (models.py:156-225) on the spec dicts handed over by the
task (each a `\x7bkey, weight\x7d` pair, the weight possibly absent):
returns the parallel lists of adapter names and weights passed to
`set_adapters`, and the collected trigger words (first trigger word of each
successfully loaded adapter, in order). A falsy (empty) key is skipped; the
effective weight is the spec weight, else the configured default, else 0.8.
The empty-spec case disables adapters and returns no triggers. -/
def apply_loras (load_ok : String → Bool) (model_key : String) :
    List (String × Option Rat) → List String × List Rat × List String
  | [] => ([], [], [])
  | (k, w) :: rest =>
    let (ns, ws, ts) := apply_loras load_ok model_key rest
    if k == "" then
      (ns, ws, ts)
    else
      let cfg := LORA_CONFIGS.lookup k
      let default_weight := (cfg.map (fun c => c.default_weight)).getD 0.8
      let weight := w.getD default_weight
      match load_lora load_ok k model_key with
      | some name =>
        let trig := (cfg.map (fun c => c.trigger_words)).getD []
        (name :: ns, weight :: ws, trig.take 1 ++ ts)
      | none => (ns, ws, ts)

/-! ## Derived definitions used in theorem statements -/

/-- The default weight consulted at both weight-resolution sites: the
`default_weight` of the adapter config, with the 0.8 fallback `apply_loras`
uses for an unknown key (models.py:194). -/
def default_weight_of (k : String) : Rat :=
  match LORA_CONFIGS.lookup k with
  | some c => c.default_weight
  | none => 0.8

/-- The effective `(key, weight)` pairs computed at submission: the request
weight when one is given, else the configured default. -/
def effective_lora_specs (specs : List LoraSpec) : List (String × Rat) :=
  specs.map (fun s => (s.key, s.weight.getD (default_weight_of s.key)))

/-- Whether a job update can write a terminal status. -/
def writes_terminal : JobUpdate → Bool
  | .setStatus s => isTerminal s
  | .setProgress _ => false
  | .completedUpdate _ _ => true
  | .failedUpdate _ => true

/-! ## Shared helper lemmas -/

lemma floor8_mod (n : Nat) : (n / 8) * 8 % 8 = 0 := Nat.mul_mod_left (n / 8) 8

lemma floor8_le (n : Nat) : (n / 8) * 8 ≤ n := Nat.div_mul_le_self n 8

lemma floor8_lt_add (n : Nat) : n < (n / 8) * 8 + 8 := by
  have hdm := Nat.div_add_mod n 8
  have hm : n % 8 < 8 := Nat.mod_lt n (by omega)
  omega

lemma applyAll_append_single (j : Job) (us : List JobUpdate) (u : JobUpdate) :
    applyAll j (us ++ [u]) = applyUpdate (applyAll j us) u := by
  simp [applyAll, List.foldl_append]

lemma applyAll_completed_fields (j : Job) (us : List JobUpdate) (url msg : String) :
    (applyAll j (us ++ [JobUpdate.completedUpdate url msg])).status = "completed"
    ∧ (applyAll j (us ++ [JobUpdate.completedUpdate url msg])).message = msg := by
  rw [applyAll_append_single]; exact ⟨rfl, rfl⟩

lemma applyAll_failed_fields (j : Job) (us : List JobUpdate) (msg : String) :
    (applyAll j (us ++ [JobUpdate.failedUpdate msg])).status = "failed"
    ∧ (applyAll j (us ++ [JobUpdate.failedUpdate msg])).message = msg := by
  rw [applyAll_append_single]; exact ⟨rfl, rfl⟩

/-! ## C3 — seed provenance -/

/-- C3, counterexample: a request that supplies seed 0 does NOT have 0
recorded; `seed if seed else "random"` (main.py:275) treats 0 as falsy, so the
embedded `AI-Seed` value is the string `random`. -/
theorem c3_seed_zero_recorded_random :
    metadata_seed (some 0) = "random" ∧ metadata_seed (some 0) ≠ "0" := by decide

/-- C3 (amended): the provenance metadata records the request seed whenever a
NONZERO seed was supplied, and the string `random` exactly when no seed or
seed 0 was supplied. -/
theorem c3_seed_metadata_amended (n : Nat) (h : n ≠ 0) :
    metadata_seed (some n) = toString n ∧ metadata_seed none = "random"
    ∧ metadata_seed (some 0) = "random" := by
  refine ⟨?_, rfl, rfl⟩
  simp [metadata_seed, h]

theorem c3_seed_metadata_amended_witness :
    metadata_seed (some 42) = toString 42 ∧ metadata_seed none = "random"
    ∧ metadata_seed (some 0) = "random" :=
  c3_seed_metadata_amended 42 (by decide)

/-! ## C4 — init-image normalization -/

/-- C4, counterexample: a 510×510 init image is within `max_size = 1024`, so
the img2img path (models.py:691-715) performs no downscale and never floors
to a multiple of 8 — the image passes through with dimensions 510×510, and
510 is not a multiple of 8. -/
theorem c4_img2img_within_bounds_not_multiple_of_8 :
    normalize_init_image_img2img 510 510 = (510, 510) ∧ ¬ (510 % 8 = 0) := by decide

/-- C4 (amended): the inpaint normalization (models.py:879-906) always
returns dimensions that are multiples of 8; the img2img normalization
(models.py:691-715) returns the input unchanged when both dimensions are
within 1024, and otherwise downscales to dimensions that are multiples of 8
preserving the aspect ratio up to the rounding
(`nh·w ≤ 1024·h < (nh+8)·w` for a landscape input, symmetrically for
portrait). -/
theorem c4_normalization_amended (w h : Nat) :
    ((normalize_init_image_inpaint w h).1 % 8 = 0
      ∧ (normalize_init_image_inpaint w h).2 % 8 = 0)
    ∧ (w ≤ 1024 → h ≤ 1024 → normalize_init_image_img2img w h = (w, h))
    ∧ (1024 < w → h < w →
        (normalize_init_image_img2img w h).1 = 1024
        ∧ (normalize_init_image_img2img w h).2 % 8 = 0
        ∧ (normalize_init_image_img2img w h).2 * w ≤ 1024 * h
        ∧ 1024 * h < ((normalize_init_image_img2img w h).2 + 8) * w)
    ∧ (1024 < h → w ≤ h →
        (normalize_init_image_img2img w h).2 = 1024
        ∧ (normalize_init_image_img2img w h).1 % 8 = 0
        ∧ (normalize_init_image_img2img w h).1 * h ≤ 1024 * w
        ∧ 1024 * w < ((normalize_init_image_img2img w h).1 + 8) * h) := by
  refine ⟨⟨?_, ?_⟩, ?_, ?_, ?_⟩
  · exact Nat.mul_mod_left _ 8
  · exact Nat.mul_mod_left _ 8
  · intro hw hh
    have hc : (decide (w > 1024) || decide (h > 1024)) = false := by
      simp; omega
    simp [normalize_init_image_img2img, hc]
  · intro hw hh
    have hc : (decide (w > 1024) || decide (h > 1024)) = true := by
      simp; omega
    have hres : normalize_init_image_img2img w h
        = (1024, ((1024 * h) / w / 8) * 8) := by
      simp [normalize_init_image_img2img, hc, hh]
    rw [hres]
    have hw0 : 0 < w := by omega
    refine ⟨rfl, Nat.mul_mod_left _ 8, ?_, ?_⟩
    · calc ((1024 * h) / w / 8) * 8 * w ≤ ((1024 * h) / w) * w :=
            Nat.mul_le_mul_right w (floor8_le _)
        _ ≤ 1024 * h := Nat.div_mul_le_self (1024 * h) w
    · have hdm := Nat.div_add_mod (1024 * h) w
      have hm : (1024 * h) % w < w := Nat.mod_lt (1024 * h) hw0
      have h2 : 1024 * h < ((1024 * h) / w + 1) * w := by
        calc 1024 * h = w * ((1024 * h) / w) + (1024 * h) % w := hdm.symm
          _ < w * ((1024 * h) / w) + w := by omega
          _ = ((1024 * h) / w + 1) * w := by ring
      have h3 : ((1024 * h) / w + 1) * w ≤ (((1024 * h) / w / 8) * 8 + 8) * w :=
        Nat.mul_le_mul_right w (by have := floor8_lt_add ((1024 * h) / w); omega)
      exact lt_of_lt_of_le h2 h3
  · intro hh hwh
    have hc : (decide (w > 1024) || decide (h > 1024)) = true := by
      simp; omega
    have hnlt : ¬ h < w := by omega
    have hres : normalize_init_image_img2img w h
        = (((1024 * w) / h / 8) * 8, 1024) := by
      simp [normalize_init_image_img2img, hc, hnlt]
    rw [hres]
    have hh0 : 0 < h := by omega
    refine ⟨rfl, Nat.mul_mod_left _ 8, ?_, ?_⟩
    · calc ((1024 * w) / h / 8) * 8 * h ≤ ((1024 * w) / h) * h :=
            Nat.mul_le_mul_right h (floor8_le _)
        _ ≤ 1024 * w := Nat.div_mul_le_self (1024 * w) h
    · have hdm := Nat.div_add_mod (1024 * w) h
      have hm : (1024 * w) % h < h := Nat.mod_lt (1024 * w) hh0
      have h2 : 1024 * w < ((1024 * w) / h + 1) * h := by
        calc 1024 * w = h * ((1024 * w) / h) + (1024 * w) % h := hdm.symm
          _ < h * ((1024 * w) / h) + h := by omega
          _ = ((1024 * w) / h + 1) * h := by ring
      have h3 : ((1024 * w) / h + 1) * h ≤ (((1024 * w) / h / 8) * 8 + 8) * h :=
        Nat.mul_le_mul_right h (by have := floor8_lt_add ((1024 * w) / h); omega)
      exact lt_of_lt_of_le h2 h3

theorem c4_normalization_amended_witness :
    normalize_init_image_inpaint 510 510 = (504, 504)
    ∧ (504 % 8 = 0)
    ∧ normalize_init_image_img2img 512 512 = (512, 512)
    ∧ normalize_init_image_img2img 2048 1000 = (1024, 496)
    ∧ 496 * 2048 ≤ 1024 * 1000 ∧ 1024 * 1000 < (496 + 8) * 2048 := by
  have h2 := (c4_normalization_amended 512 512).2.1 (by decide) (by decide)
  have h3 := (c4_normalization_amended 2048 1000).2.2.1 (by decide) (by decide)
  exact ⟨by decide, by decide, h2, by decide, h3.2.2.1, h3.2.2.2⟩

/-! ## C6 — metadata-embedding failures -/

/-- C6, counterexample: a raise while building the JPEG EXIF metadata
(`add_energy_metadata_jpeg`, main.py:304) is caught by the task-level except
handler (main.py:328-333), so the job transitions to `failed`, not
`completed` as the claim states. -/
theorem c6_jpeg_embed_failure_fails_job :
    (applyAll initialJob (generate_image_task_trace "j1" "sd-v1-5" .ok []
        none (some "piexif dump failed") false)).status = "failed"
    ∧ (applyAll initialJob (generate_image_task_trace "j1" "sd-v1-5" .ok []
        none (some "piexif dump failed") false)).status ≠ "completed" := by decide

/-- C6 (amended): only a Finder-comment failure is non-fatal — it is swallowed
inside `set_finder_comment` with a warning and the job still completes (the
artifacts were already persisted). A raise from the PNG text-chunk embedding
or the JPEG EXIF embedding propagates to the except handler and the job
transitions to `failed`. -/
theorem c6_embedding_failures_amended (jid : String) (ticks : List Rat)
    (e : String) (fr : Bool) :
    (applyAll initialJob
        (generate_image_task_trace jid "sd-v1-5" .ok ticks none none fr)).status
      = "completed"
    ∧ (applyAll initialJob
        (generate_image_task_trace jid "sd-v1-5" .ok ticks (some e) none fr)).status
      = "failed"
    ∧ (applyAll initialJob
        (generate_image_task_trace jid "sd-v1-5" .ok ticks none (some e) fr)).status
      = "failed"
    ∧ set_finder_comment true = true ∧ set_finder_comment false = false := by
  have hmk : get_model_id_from_key "sd-v1-5" = .ok "runwayml/stable-diffusion-v1-5" := rfl
  refine ⟨?_, ?_, ?_, rfl, rfl⟩
  · have ht : generate_image_task_trace jid "sd-v1-5" .ok ticks none none fr
        = ([JobUpdate.setStatus "processing", JobUpdate.setProgress 0]
            ++ ticks.map JobUpdate.setProgress)
          ++ [JobUpdate.completedUpdate ("/images/" ++ jid ++ ".png")
                "Image generated successfully"] := by
      simp [generate_image_task_trace, hmk, finalize_updates]
    rw [ht]
    exact (applyAll_completed_fields _ _ _ _).1
  · have ht : generate_image_task_trace jid "sd-v1-5" .ok ticks (some e) none fr
        = ([JobUpdate.setStatus "processing", JobUpdate.setProgress 0]
            ++ ticks.map JobUpdate.setProgress)
          ++ [JobUpdate.failedUpdate ("Generation failed: " ++ e)] := by
      simp [generate_image_task_trace, hmk, finalize_updates]
    rw [ht]
    exact (applyAll_failed_fields _ _ _).1
  · have ht : generate_image_task_trace jid "sd-v1-5" .ok ticks none (some e) fr
        = ([JobUpdate.setStatus "processing", JobUpdate.setProgress 0]
            ++ ticks.map JobUpdate.setProgress)
          ++ [JobUpdate.failedUpdate ("Generation failed: " ++ e)] := by
      simp [generate_image_task_trace, hmk, finalize_updates]
    rw [ht]
    exact (applyAll_failed_fields _ _ _).1

/-! ## C5 — adapter/model compatibility rejection -/

lemma compat_lookup_isSome {k mk : String} (h : is_lora_compatible k mk = true) :
    ∃ c, LORA_CONFIGS.lookup k = some c := by
  unfold is_lora_compatible at h
  cases hl : LORA_CONFIGS.lookup k with
  | none => rw [hl] at h; exact absurd h (by simp)
  | some c => exact ⟨c, rfl⟩

lemma validate_loras_first_incompat (mk k : String) (w : Option Rat)
    (pre rest : List LoraSpec)
    (hpre : ∀ s ∈ pre, is_lora_compatible s.key mk = true)
    (hk : is_lora_compatible k mk = false) :
    validate_loras mk (pre ++ ⟨k, w⟩ :: rest)
      = .error (.http 400 (incompat_detail k mk)) := by
  induction pre with
  | nil => simp [validate_loras, hk]
  | cons s ps ih =>
    have hs : is_lora_compatible s.key mk = true := hpre s (by simp)
    obtain ⟨c, hc⟩ := compat_lookup_isSome hs
    have ih2 := ih (fun x hx => hpre x (by simp [hx]))
    simp [validate_loras, hs, get_lora_config, hc, ih2]

/-- C5, confirmed: if any requested adapter is incompatible with the request
model key (earlier requested adapters being compatible), `generate_image`
fails synchronously with status 400 and the exact detail string naming the
offending adapter and listing the model's compatible adapters
(`incompat_detail` contains `get_compatible_loras model_key`); the result is
an error, so no job is created and no background task — hence no adapter
activation — is queued. Moreover `thangka` is absent from the compatible list
of every SD 1.5-family (standard-resolution) model key. -/
theorem c5_incompatible_adapter_rejected :
    (∀ (req : GenerateRequest) (pre rest : List LoraSpec) (k : String) (w : Option Rat),
      req.loras = some (pre ++ ⟨k, w⟩ :: rest) →
      (∀ s ∈ pre, is_lora_compatible s.key req.model_key = true) →
      is_lora_compatible k req.model_key = false →
      req.width % 8 = 0 → req.height % 8 = 0 →
      generate_image req = .error (.http 400 (incompat_detail k req.model_key)))
    ∧ (∀ mk ∈ SD15_COMPATIBLE_MODELS, "thangka" ∉ get_compatible_loras mk) := by
  constructor
  · intro req pre rest k w hl hpre hk hw hh
    have hcond : (req.width % 8 != 0 || req.height % 8 != 0) = false := by
      simp [hw, hh]
    have hval := validate_loras_first_incompat req.model_key k w pre rest hpre hk
    cases pre with
    | nil =>
      simp only [List.nil_append] at hl hval
      simp [generate_image, hcond, hl, hval]
    | cons p ps =>
      simp only [List.cons_append] at hl hval
      simp [generate_image, hcond, hl, hval]
  · decide

theorem c5_incompatible_adapter_rejected_witness :
    generate_image { prompt := "a thangka painting", model_key := "sd-v1-5",
                     loras := some [⟨"thangka", none⟩] }
      = .error (.http 400 (incompat_detail "thangka" "sd-v1-5"))
    ∧ incompat_detail "thangka" "sd-v1-5"
      = "LoRA " ++ quoted "thangka" ++ " is not compatible with model "
        ++ quoted "sd-v1-5" ++ ". Compatible LoRAs: watercolor, anime-ghibli" := by
  refine ⟨c5_incompatible_adapter_rejected.1 _ [] [] "thangka" none rfl
      (by simp) (by decide) (by decide) (by decide), by decide⟩

/-! ## C8 — adapter blend-weight passthrough -/

lemma compat_key_ne_empty {k mk : String} (h : is_lora_compatible k mk = true) :
    (k == "") = false := by
  obtain ⟨c, hc⟩ := compat_lookup_isSome h
  cases hk : (k == "") with
  | false => rfl
  | true =>
    have hke : k = "" := by simpa using hk
    subst hke
    have hnone : LORA_CONFIGS.lookup "" = none := by decide
    rw [hnone] at hc
    exact Option.noConfusion hc

lemma validate_loras_all_compat (mk : String) (specs : List LoraSpec)
    (h : ∀ s ∈ specs, is_lora_compatible s.key mk = true) :
    validate_loras mk specs = .ok (effective_lora_specs specs) := by
  induction specs with
  | nil => simp [validate_loras, effective_lora_specs]
  | cons s ps ih =>
    have hs : is_lora_compatible s.key mk = true := h s (by simp)
    obtain ⟨c, hc⟩ := compat_lookup_isSome hs
    have ih2 := ih (fun x hx => h x (by simp [hx]))
    simp [validate_loras, hs, get_lora_config, hc, ih2, effective_lora_specs,
      default_weight_of]

lemma apply_loras_weights (mk : String) (load_ok : String → Bool)
    (ws : List (String × Rat))
    (h : ∀ p ∈ ws, is_lora_compatible p.1 mk = true) :
    (apply_loras load_ok mk (ws.map (fun p => (p.1, some p.2)))).1
      = (ws.filter (fun p => load_ok p.1)).map Prod.fst
    ∧ (apply_loras load_ok mk (ws.map (fun p => (p.1, some p.2)))).2.1
      = (ws.filter (fun p => load_ok p.1)).map Prod.snd := by
  induction ws with
  | nil => simp [apply_loras]
  | cons p ps ih =>
    have hp : is_lora_compatible p.1 mk = true := h p (by simp)
    have hne := compat_key_ne_empty hp
    obtain ⟨c, hc⟩ := compat_lookup_isSome hp
    have ih2 := ih (fun x hx => h x (by simp [hx]))
    cases hld : load_ok p.1 with
    | true =>
      simp [apply_loras, hne, load_lora, hc, hp, hld, ih2.1, ih2.2, List.filter]
    | false =>
      simp [apply_loras, hne, load_lora, hc, hp, hld, ih2.1, ih2.2, List.filter]

/-- C8, confirmed: for adapters accepted at submission, the blend weight is
the explicit request weight when one is provided — passed through unchanged,
with no clamping to the declared weight range — and the adapter's configured
default weight otherwise; `apply_loras` then hands `set_adapters` exactly
those weights, in order, for the adapters whose (externally-dependent) load
succeeds. -/
theorem c8_weight_passthrough (mk : String) (specs : List LoraSpec)
    (h : ∀ s ∈ specs, is_lora_compatible s.key mk = true) :
    validate_loras mk specs = .ok (effective_lora_specs specs)
    ∧ effective_lora_specs specs
      = specs.map (fun s => (s.key, s.weight.getD (default_weight_of s.key)))
    ∧ ∀ load_ok : String → Bool,
        (apply_loras load_ok mk
            ((effective_lora_specs specs).map (fun p => (p.1, some p.2)))).1
          = ((effective_lora_specs specs).filter (fun p => load_ok p.1)).map Prod.fst
        ∧ (apply_loras load_ok mk
            ((effective_lora_specs specs).map (fun p => (p.1, some p.2)))).2.1
          = ((effective_lora_specs specs).filter (fun p => load_ok p.1)).map Prod.snd := by
  refine ⟨validate_loras_all_compat mk specs h, rfl, ?_⟩
  intro load_ok
  refine apply_loras_weights mk load_ok (effective_lora_specs specs) ?_
  intro p hp
  simp only [effective_lora_specs, List.mem_map] at hp
  obtain ⟨s, hs, rfl⟩ := hp
  exact h s hs

theorem c8_weight_passthrough_witness :
    validate_loras "sdxl" [⟨"thangka", some 5⟩] = .ok [("thangka", 5)]
    ∧ (apply_loras (fun _ => true) "sdxl" [("thangka", some 5)]).2.1 = [5]
    ∧ ((5 : Rat) > ((LORA_CONFIGS.lookup "thangka").map
        (fun c => c.weight_max)).getD 0) := by
  have h := c8_weight_passthrough "sdxl" [⟨"thangka", some 5⟩] (by decide)
  refine ⟨h.1, ?_, by simp [LORA_CONFIGS, List.lookup]; norm_num⟩
  have h2 := (h.2.2 (fun _ => true)).2
  simpa using h2

/-! ## C9 — negative-prompt defaulting -/

/-- C9, confirmed: in `generate_image` (models.py:366-393), when no negative
prompt is supplied (absent or empty string) the built-in
`DEFAULT_NEGATIVE_PROMPT` is substituted before any non-FLUX engine is
invoked (both the SDXL and the standard branch), while for FLUX models any
supplied negative prompt is discarded (set to `None`); the img2img and
inpaint paths (models.py:681-683, 868-870) substitute the same default. -/
theorem c9_negative_prompt_default (model_id : String) (np : Option String) :
    (is_flux_model model_id = true →
      effective_negative_prompt_txt2img model_id np = none)
    ∧ (is_flux_model model_id = false →
        ((np = none ∨ np = some "") →
          effective_negative_prompt_txt2img model_id np = some DEFAULT_NEGATIVE_PROMPT)
        ∧ (∀ s : String, np = some s → s ≠ "" →
            effective_negative_prompt_txt2img model_id np = some s))
    ∧ ((np = none ∨ np = some "") →
        effective_negative_prompt_img2img np = some DEFAULT_NEGATIVE_PROMPT
        ∧ effective_negative_prompt_inpaint np = some DEFAULT_NEGATIVE_PROMPT)
    ∧ (∀ s : String, np = some s → s ≠ "" →
        effective_negative_prompt_img2img np = some s
        ∧ effective_negative_prompt_inpaint np = some s) := by
  refine ⟨?_, ?_, ?_, ?_⟩
  · intro hf
    simp [effective_negative_prompt_txt2img, hf]
  · intro hf
    constructor
    · rintro (rfl | rfl) <;>
        simp [effective_negative_prompt_txt2img, hf, str_opt_falsy, ite_self]
    · rintro s rfl hs
      simp [effective_negative_prompt_txt2img, hf, str_opt_falsy, hs, ite_self]
  · rintro (rfl | rfl) <;>
      simp [effective_negative_prompt_img2img, effective_negative_prompt_inpaint,
        str_opt_falsy]
  · rintro s rfl hs
    simp [effective_negative_prompt_img2img, effective_negative_prompt_inpaint,
      str_opt_falsy, hs]

theorem c9_negative_prompt_default_witness :
    effective_negative_prompt_txt2img "black-forest-labs/FLUX.1-schnell"
        (some "blurry") = none
    ∧ effective_negative_prompt_txt2img "runwayml/stable-diffusion-v1-5" none
        = some DEFAULT_NEGATIVE_PROMPT
    ∧ effective_negative_prompt_txt2img "runwayml/stable-diffusion-v1-5"
        (some "") = some DEFAULT_NEGATIVE_PROMPT
    ∧ effective_negative_prompt_txt2img "runwayml/stable-diffusion-v1-5"
        (some "blurry") = some "blurry" := by
  refine ⟨(c9_negative_prompt_default _ _).1 (by decide),
    ((c9_negative_prompt_default _ _).2.1 (by decide)).1 (Or.inl rfl),
    ((c9_negative_prompt_default _ _).2.1 (by decide)).1 (Or.inr rfl),
    ((c9_negative_prompt_default _ _).2.1 (by decide)).2 "blurry" rfl (by decide)⟩

/-! ## C10 — unknown model key: accepted at submission, fails in execution -/

/-- C10, confirmed: a text-to-image request whose model key is not in the
registry — with valid dimensions and no adapters, which are the only
submission-time checks (main.py:626-653) — is accepted synchronously with a
`pending` job; the background task then fails resolving the key
(config.py:213-217) and the job transitions to `failed` with a message naming
the unknown key and enumerating the available model keys. -/
theorem c10_unknown_model_key (req : GenerateRequest)
    (hkey : MODEL_CONFIGS.lookup req.model_key = none)
    (hloras : req.loras = none) (hw : req.width % 8 = 0) (hh : req.height % 8 = 0) :
    generate_image req
      = .ok { job_status := "pending", job_message := "Job queued for processing",
              lora_specs := none }
    ∧ (∀ (jid : String) (engine : EngineResult) (ticks : List Rat)
        (pe je : Option String) (fr : Bool),
        (applyAll initialJob
            (generate_image_task_trace jid req.model_key engine ticks pe je fr)).status
          = "failed"
        ∧ (applyAll initialJob
            (generate_image_task_trace jid req.model_key engine ticks pe je fr)).message
          = "Generation failed: " ++ ("Unknown model key: " ++ req.model_key
              ++ ". Available: " ++ joinComma (MODEL_CONFIGS.map Prod.fst)))
    ∧ joinComma (MODEL_CONFIGS.map Prod.fst)
      = "sd-v1-5, openjourney, sdxl, realistic-vision, dreamshaper, analog-diffusion, flux-schnell" := by
  have hcond : (req.width % 8 != 0 || req.height % 8 != 0) = false := by
    simp [hw, hh]
  refine ⟨by simp [generate_image, hcond, hloras], ?_, by decide⟩
  intro jid engine ticks pe je fr
  have hmid : get_model_id_from_key req.model_key
      = .error ("Unknown model key: " ++ req.model_key ++ ". Available: "
          ++ joinComma (MODEL_CONFIGS.map Prod.fst)) := by
    simp [get_model_id_from_key, get_model_config, hkey]
  have ht : generate_image_task_trace jid req.model_key engine ticks pe je fr
      = [JobUpdate.setStatus "processing", JobUpdate.setProgress 0]
        ++ [JobUpdate.failedUpdate ("Generation failed: "
              ++ ("Unknown model key: " ++ req.model_key ++ ". Available: "
                  ++ joinComma (MODEL_CONFIGS.map Prod.fst)))] := by
    simp [generate_image_task_trace, hmid]
  rw [ht]
  have hf := applyAll_failed_fields initialJob
      [JobUpdate.setStatus "processing", JobUpdate.setProgress 0]
      ("Generation failed: " ++ ("Unknown model key: " ++ req.model_key
        ++ ". Available: " ++ joinComma (MODEL_CONFIGS.map Prod.fst)))
  exact ⟨hf.1, hf.2⟩

theorem c10_unknown_model_key_witness :
    generate_image { prompt := "a cat", model_key := "sd-v3" }
      = .ok { job_status := "pending", job_message := "Job queued for processing",
              lora_specs := none }
    ∧ (applyAll initialJob
        (generate_image_task_trace "j1" "sd-v3" .ok [] none none false)).status
      = "failed"
    ∧ (applyAll initialJob
        (generate_image_task_trace "j1" "sd-v3" .ok [] none none false)).message
      = "Generation failed: Unknown model key: sd-v3. Available: "
        ++ "sd-v1-5, openjourney, sdxl, realistic-vision, dreamshaper, analog-diffusion, flux-schnell" := by
  have h := c10_unknown_model_key { prompt := "a cat", model_key := "sd-v3" }
    (by decide) rfl (by decide) (by decide)
  refine ⟨h.1, (h.2.1 "j1" .ok [] none none false).1, ?_⟩
  rw [(h.2.1 "j1" .ok [] none none false).2]
  decide

/-! ## C1 — img2img/inpaint success path -/

/-- C1, code bug: in `generate_img2img_task` and `generate_inpaint_task` the
metadata dict reads the unbound names `width`/`height` (main.py:399-400,
532-533), so after a SUCCESSFUL engine invocation the task raises `NameError`
before persisting anything and transitions the job to `failed` — never to
`completed` as the spec requires. `generate_image_task`, which binds
`width`/`height` as parameters, shows the intended pattern. -/
theorem c1_img2img_inpaint_success_still_fails (jid mk mid : String)
    (ticks : List Rat) (hmk : get_model_id_from_key mk = .ok mid) :
    ((applyAll initialJob (generate_img2img_task_trace jid mk .ok ticks)).status
        = "failed"
      ∧ (applyAll initialJob (generate_img2img_task_trace jid mk .ok ticks)).message
        = "Img2img generation failed: "
          ++ ("name " ++ quoted "width" ++ " is not defined"))
    ∧ ((applyAll initialJob (generate_inpaint_task_trace jid mk .ok ticks)).status
        = "failed"
      ∧ (applyAll initialJob (generate_inpaint_task_trace jid mk .ok ticks)).message
        = "Inpaint generation failed: "
          ++ ("name " ++ quoted "width" ++ " is not defined")) := by
  have hm1 : build_img2img_metadata
      = .error ("name " ++ quoted "width" ++ " is not defined") := rfl
  have hm2 : build_inpaint_metadata
      = .error ("name " ++ quoted "width" ++ " is not defined") := rfl
  constructor
  · have ht : generate_img2img_task_trace jid mk .ok ticks
        = ([JobUpdate.setStatus "processing", JobUpdate.setProgress 0]
            ++ ticks.map JobUpdate.setProgress)
          ++ [JobUpdate.failedUpdate ("Img2img generation failed: "
                ++ ("name " ++ quoted "width" ++ " is not defined"))] := by
      simp [generate_img2img_task_trace, hmk, hm1]
    rw [ht]
    exact applyAll_failed_fields _ _ _
  · have ht : generate_inpaint_task_trace jid mk .ok ticks
        = ([JobUpdate.setStatus "processing", JobUpdate.setProgress 0]
            ++ ticks.map JobUpdate.setProgress)
          ++ [JobUpdate.failedUpdate ("Inpaint generation failed: "
                ++ ("name " ++ quoted "width" ++ " is not defined"))] := by
      simp [generate_inpaint_task_trace, hmk, hm2]
    rw [ht]
    exact applyAll_failed_fields _ _ _

theorem c1_img2img_inpaint_success_still_fails_witness :
    (applyAll initialJob
        (generate_img2img_task_trace "j1" "sd-v1-5" .ok [])).status = "failed"
    ∧ (applyAll initialJob
        (generate_inpaint_task_trace "j1" "sd-v1-5" .ok [])).status = "failed" :=
  ⟨(c1_img2img_inpaint_success_still_fails "j1" "sd-v1-5"
      "runwayml/stable-diffusion-v1-5" [] rfl).1.1,
   (c1_img2img_inpaint_success_still_fails "j1" "sd-v1-5"
      "runwayml/stable-diffusion-v1-5" [] rfl).2.1⟩

/-! ## C2 — cache acquisition and mutual exclusion -/

/-- C2, counterexample: the loader holds no lock, so the interleaving
t1-check, t2-check, t1-insert, t2-insert of two concurrent acquisitions for
the same `(model, mode)` key is a possible execution; in it the engine is
loaded TWICE, the two callers hold two distinct handles (0 and 1), and the
second insert silently overwrites the first — refuting the claim that at most
one load occurs and no duplicate handles are created. -/
theorem c2_unguarded_cache_races :
    ((run2 "runwayml/stable-diffusion-v1-5" "txt2img" [true, false, true, false]
        (init_manager, LoadPC.start, LoadPC.start)).1.load_count = 2)
    ∧ ((run2 "runwayml/stable-diffusion-v1-5" "txt2img" [true, false, true, false]
        (init_manager, LoadPC.start, LoadPC.start)).2.1 = LoadPC.done 0)
    ∧ ((run2 "runwayml/stable-diffusion-v1-5" "txt2img" [true, false, true, false]
        (init_manager, LoadPC.start, LoadPC.start)).2.2 = LoadPC.done 1)
    ∧ ((run2 "runwayml/stable-diffusion-v1-5" "txt2img" [true, false, true, false]
        (init_manager, LoadPC.start, LoadPC.start)).1.model_cache
      = [(("runwayml/stable-diffusion-v1-5", "txt2img"), 1)]) := by decide

/-- C2 (amended): when the two acquisitions for the same key do not overlap
(the second runs only after the first has inserted), repeated acquisition is
idempotent — exactly one engine load occurs and both callers receive the same
handle. But the cache's read-check-insert sequence is NOT guarded by any
mutual-exclusion mechanism — `__init__` (models.py:55-61) creates no lock —
so overlapping acquisitions for the same key can each load the engine
(see the counterexample interleaving). -/
theorem c2_sequential_acquire_idempotent (mid mode : String) :
    ((run2 mid mode [true, true, false]
        (init_manager, LoadPC.start, LoadPC.start)).1.load_count = 1)
    ∧ ((run2 mid mode [true, true, false]
        (init_manager, LoadPC.start, LoadPC.start)).2.1 = LoadPC.done 0)
    ∧ ((run2 mid mode [true, true, false]
        (init_manager, LoadPC.start, LoadPC.start)).2.2 = LoadPC.done 0)
    ∧ ((run2 mid mode [true, true, false]
        (init_manager, LoadPC.start, LoadPC.start)).1.model_cache
      = [((mid, mode), 0)]) := by
  simp [run2, load_step, insert_cache, init_manager, List.lookup]

/-! ## C7 — terminal states are stable -/

lemma nonterminal_step (j : Job) (u : JobUpdate)
    (hj : isTerminal j.status = false) (hu : writes_terminal u = false) :
    isTerminal (applyUpdate j u).status = false := by
  cases u with
  | setStatus s => simpa [applyUpdate, writes_terminal] using hu
  | setProgress p => simpa [applyUpdate] using hj
  | completedUpdate url msg => simp [writes_terminal] at hu
  | failedUpdate msg => simp [writes_terminal] at hu

lemma nonterminal_applyAll (us : List JobUpdate) :
    ∀ j : Job, isTerminal j.status = false →
      (∀ u ∈ us, writes_terminal u = false) →
      isTerminal (applyAll j us).status = false := by
  induction us with
  | nil => intro j hj _; simpa [applyAll] using hj
  | cons u rest ih =>
    intro j hj hus
    have h1 := nonterminal_step j u hj (hus u (by simp))
    have h2 := ih (applyUpdate j u) h1 (fun x hx => hus x (by simp [hx]))
    simpa [applyAll] using h2

lemma runPrefix_stable (pre : List JobUpdate) (lastu : JobUpdate)
    (hpre : ∀ u ∈ pre, writes_terminal u = false) (i j : Nat) (hij : i ≤ j)
    (hterm : isTerminal (runPrefix (pre ++ [lastu]) i).status = true) :
    runPrefix (pre ++ [lastu]) j = runPrefix (pre ++ [lastu]) i := by
  have hinit : isTerminal initialJob.status = false := rfl
  have hi : pre.length + 1 ≤ i := by
    by_contra hlt
    push_neg at hlt
    have hile : i ≤ pre.length := by omega
    have htake : (pre ++ [lastu]).take i = pre.take i :=
      List.take_append_of_le_length hile
    have hnt : isTerminal (runPrefix (pre ++ [lastu]) i).status = false := by
      rw [runPrefix, htake]
      exact nonterminal_applyAll (pre.take i) initialJob hinit
        (fun u hu => hpre u (List.take_subset i pre hu))
    rw [hnt] at hterm
    exact Bool.noConfusion hterm
  have hlen : (pre ++ [lastu]).length ≤ i := by simp; omega
  have htake_i : (pre ++ [lastu]).take i = pre ++ [lastu] :=
    List.take_of_length_le hlen
  have htake_j : (pre ++ [lastu]).take j = pre ++ [lastu] :=
    List.take_of_length_le (le_trans hlen hij)
  rw [runPrefix, runPrefix, htake_i, htake_j]

lemma pre_updates_nonterminal (ticks : List Rat) :
    ∀ u ∈ ([JobUpdate.setStatus "processing", JobUpdate.setProgress 0]
        ++ ticks.map JobUpdate.setProgress), writes_terminal u = false := by
  intro u hu
  rcases List.mem_append.mp hu with h | h
  · rcases List.mem_cons.mp h with rfl | h2
    · rfl
    · rcases List.mem_cons.mp h2 with rfl | h3
      · rfl
      · exact absurd h3 (List.not_mem_nil u)
  · obtain ⟨p, -, rfl⟩ := List.mem_map.mp h
    rfl

lemma trace_shape_txt2img (jid mk : String) (engine : EngineResult)
    (ticks : List Rat) (pe je : Option String) (fr : Bool) :
    ∃ pre lastu,
      generate_image_task_trace jid mk engine ticks pe je fr = pre ++ [lastu]
      ∧ ∀ u ∈ pre, writes_terminal u = false := by
  cases hm : get_model_id_from_key mk with
  | error e =>
    refine ⟨[JobUpdate.setStatus "processing", JobUpdate.setProgress 0],
      JobUpdate.failedUpdate ("Generation failed: " ++ e),
      by simp [generate_image_task_trace, hm], ?_⟩
    exact fun u hu => pre_updates_nonterminal [] u (by simpa using hu)
  | ok mid =>
    cases engine with
    | err e =>
      exact ⟨[JobUpdate.setStatus "processing", JobUpdate.setProgress 0]
          ++ ticks.map JobUpdate.setProgress,
        JobUpdate.failedUpdate ("Generation failed: " ++ e),
        by simp [generate_image_task_trace, hm],
        pre_updates_nonterminal ticks⟩
    | ok =>
      cases pe with
      | some e =>
        exact ⟨[JobUpdate.setStatus "processing", JobUpdate.setProgress 0]
            ++ ticks.map JobUpdate.setProgress,
          JobUpdate.failedUpdate ("Generation failed: " ++ e),
          by simp [generate_image_task_trace, hm, finalize_updates],
          pre_updates_nonterminal ticks⟩
      | none =>
        cases je with
        | some e =>
          exact ⟨[JobUpdate.setStatus "processing", JobUpdate.setProgress 0]
              ++ ticks.map JobUpdate.setProgress,
            JobUpdate.failedUpdate ("Generation failed: " ++ e),
            by simp [generate_image_task_trace, hm, finalize_updates],
            pre_updates_nonterminal ticks⟩
        | none =>
          exact ⟨[JobUpdate.setStatus "processing", JobUpdate.setProgress 0]
              ++ ticks.map JobUpdate.setProgress,
            JobUpdate.completedUpdate ("/images/" ++ jid ++ ".png")
              "Image generated successfully",
            by simp [generate_image_task_trace, hm, finalize_updates],
            pre_updates_nonterminal ticks⟩

lemma trace_shape_img2img (jid mk : String) (engine : EngineResult)
    (ticks : List Rat) :
    ∃ pre lastu, generate_img2img_task_trace jid mk engine ticks = pre ++ [lastu]
      ∧ ∀ u ∈ pre, writes_terminal u = false := by
  cases hm : get_model_id_from_key mk with
  | error e =>
    refine ⟨[JobUpdate.setStatus "processing", JobUpdate.setProgress 0],
      JobUpdate.failedUpdate ("Img2img generation failed: " ++ e),
      by simp [generate_img2img_task_trace, hm], ?_⟩
    exact fun u hu => pre_updates_nonterminal [] u (by simpa using hu)
  | ok mid =>
    cases engine with
    | err e =>
      exact ⟨[JobUpdate.setStatus "processing", JobUpdate.setProgress 0]
          ++ ticks.map JobUpdate.setProgress,
        JobUpdate.failedUpdate ("Img2img generation failed: " ++ e),
        by simp [generate_img2img_task_trace, hm],
        pre_updates_nonterminal ticks⟩
    | ok =>
      cases hb : build_img2img_metadata with
      | error e =>
        exact ⟨[JobUpdate.setStatus "processing", JobUpdate.setProgress 0]
            ++ ticks.map JobUpdate.setProgress,
          JobUpdate.failedUpdate ("Img2img generation failed: " ++ e),
          by simp [generate_img2img_task_trace, hm, hb],
          pre_updates_nonterminal ticks⟩
      | ok u =>
        exact ⟨[JobUpdate.setStatus "processing", JobUpdate.setProgress 0]
            ++ ticks.map JobUpdate.setProgress,
          JobUpdate.completedUpdate ("/images/" ++ jid ++ ".png")
            "Img2img generated successfully",
          by simp [generate_img2img_task_trace, hm, hb],
          pre_updates_nonterminal ticks⟩

lemma trace_shape_inpaint (jid mk : String) (engine : EngineResult)
    (ticks : List Rat) :
    ∃ pre lastu, generate_inpaint_task_trace jid mk engine ticks = pre ++ [lastu]
      ∧ ∀ u ∈ pre, writes_terminal u = false := by
  cases hm : get_model_id_from_key mk with
  | error e =>
    refine ⟨[JobUpdate.setStatus "processing", JobUpdate.setProgress 0],
      JobUpdate.failedUpdate ("Inpaint generation failed: " ++ e),
      by simp [generate_inpaint_task_trace, hm], ?_⟩
    exact fun u hu => pre_updates_nonterminal [] u (by simpa using hu)
  | ok mid =>
    cases engine with
    | err e =>
      exact ⟨[JobUpdate.setStatus "processing", JobUpdate.setProgress 0]
          ++ ticks.map JobUpdate.setProgress,
        JobUpdate.failedUpdate ("Inpaint generation failed: " ++ e),
        by simp [generate_inpaint_task_trace, hm],
        pre_updates_nonterminal ticks⟩
    | ok =>
      cases hb : build_inpaint_metadata with
      | error e =>
        exact ⟨[JobUpdate.setStatus "processing", JobUpdate.setProgress 0]
            ++ ticks.map JobUpdate.setProgress,
          JobUpdate.failedUpdate ("Inpaint generation failed: " ++ e),
          by simp [generate_inpaint_task_trace, hm, hb],
          pre_updates_nonterminal ticks⟩
      | ok u =>
        exact ⟨[JobUpdate.setStatus "processing", JobUpdate.setProgress 0]
            ++ ticks.map JobUpdate.setProgress,
          JobUpdate.completedUpdate ("/images/" ++ jid ++ ".png")
            "Inpaint generated successfully",
          by simp [generate_inpaint_task_trace, hm, hb],
          pre_updates_nonterminal ticks⟩

/-- C7, confirmed: along every task execution trace (text-to-image, img2img
or inpaint), once the job state observed after some prefix of updates is
terminal (`completed` or `failed`), every longer prefix yields the identical
job state — same status, message, result fields — and hence `get_status`
returns the same response; the state never regresses and never switches to
the other terminal state. -/
theorem c7_terminal_state_stable (jid mk : String) (engine : EngineResult)
    (ticks : List Rat) (pe je : Option String) (fr : Bool) (t : List JobUpdate)
    (ht : t = generate_image_task_trace jid mk engine ticks pe je fr
        ∨ t = generate_img2img_task_trace jid mk engine ticks
        ∨ t = generate_inpaint_task_trace jid mk engine ticks)
    (i j : Nat) (hij : i ≤ j)
    (hterm : isTerminal (runPrefix t i).status = true) :
    runPrefix t j = runPrefix t i
    ∧ get_status [(jid, runPrefix t j)] jid
      = get_status [(jid, runPrefix t i)] jid := by
  have hshape : ∃ pre lastu, t = pre ++ [lastu]
      ∧ ∀ u ∈ pre, writes_terminal u = false := by
    rcases ht with rfl | rfl | rfl
    · exact trace_shape_txt2img jid mk engine ticks pe je fr
    · exact trace_shape_img2img jid mk engine ticks
    · exact trace_shape_inpaint jid mk engine ticks
  obtain ⟨pre, lastu, rfl, hpre⟩ := hshape
  have hstab := runPrefix_stable pre lastu hpre i j hij hterm
  exact ⟨hstab, by rw [hstab]⟩

theorem c7_terminal_state_stable_witness :
    runPrefix (generate_image_task_trace "j1" "sd-v1-5" .ok [] none none false) 10
      = runPrefix (generate_image_task_trace "j1" "sd-v1-5" .ok [] none none false) 3
    ∧ get_status [("j1",
        runPrefix (generate_image_task_trace "j1" "sd-v1-5" .ok [] none none false) 10)] "j1"
      = get_status [("j1",
        runPrefix (generate_image_task_trace "j1" "sd-v1-5" .ok [] none none false) 3)] "j1" :=
  c7_terminal_state_stable "j1" "sd-v1-5" .ok [] none none false _
    (Or.inl rfl) 3 10 (by omega) (by decide)

end DragonWings
